import Mathlib

/-!
Verification of the Multimodal Analysis Orchestrator of the KnightHacks2025
speech-coaching app.

The repository ships the frontend (`frontend/record-script.js`) together with
documentation of the Python backend; the backend modules themselves
(`main.py`, `transcriber.py`, `voice_analyzer.py`, `emotion_analyzer.py`,
`action_agent.py`) are not part of the source tree we were given, so the
orchestrator, the three analysis agents and the advice generator are modelled
from the specification, while the frontend functions
(`populateAnalysisResults`, `convertEmotionTimelineToGraph`,
`getActionableAdvice`) are shallow embeddings of the JavaScript source.

Numeric scores are modelled as rationals (JavaScript numbers, with the
division-by-zero behaviour of floats modelled explicitly by `JsNum`).
-/

namespace SpeechCoach

/-- The fixed 7-member emotion taxonomy. -/
inductive Emotion where
  | happy
  | sad
  | angry
  | fear
  | disgust
  | surprise
  | neutral
deriving DecidableEq, Repr

/-- Per-frame confidence for each of the 7 emotion labels (0..100 each,
independent per-label confidence, not a distribution). -/
structure Intensities where
  happy : ℚ
  sad : ℚ
  angry : ℚ
  fear : ℚ
  disgust : ℚ
  surprise : ℚ
  neutral : ℚ
deriving DecidableEq, Repr

/-- Look up the confidence of one emotion label. -/
def Intensities.get (i : Intensities) : Emotion → ℚ
  | .happy => i.happy
  | .sad => i.sad
  | .angry => i.angry
  | .fear => i.fear
  | .disgust => i.disgust
  | .surprise => i.surprise
  | .neutral => i.neutral

/-- One sample of the emotion timeline. -/
structure EmotionSample where
  timestampSeconds : ℚ
  intensities : Intensities
deriving DecidableEq, Repr

/-- Time-ordered emotion samples plus an aggregate 0..10 rating. -/
structure EmotionTimeline where
  samples : List EmotionSample
  overallRating : ℚ
deriving DecidableEq, Repr

/-- Result of the transcript-quality agent. -/
structure TranscriptResult where
  text : String
  qualityScore : ℚ
  fillerCount : ℕ
  wordCount : ℕ
deriving DecidableEq, Repr

/-- The four vocal-delivery scores; the structure type itself enforces that a
voice result always carries all four fields. -/
structure VoiceMetrics where
  pitch : ℚ
  volume : ℚ
  speed : ℚ
  prosody : ℚ
deriving DecidableEq, Repr

/-- Error taxonomy of the analysis pipeline. -/
inductive CoachError where
  | unsupportedMedia
  | transcriptionError (msg : String)
  | noFacesDetected
  | missingAnalysis
deriving DecidableEq, Repr

/-- The errors mapping of an `AnalysisReport`, keyed by agent name (the key
set is fixed, so the mapping is modelled as a record of optional reasons). -/
structure ErrorMap where
  preprocessing : Option CoachError
  transcriber : Option CoachError
  voice : Option CoachError
  emotion : Option CoachError
deriving DecidableEq, Repr

/-- The merged report returned by `analyze`. -/
structure AnalysisReport where
  transcript : Option TranscriptResult
  voice : Option VoiceMetrics
  emotion : Option EmotionTimeline
  errors : ErrorMap
deriving DecidableEq, Repr

/-- Sampled video frames are opaque images, identified by an index. -/
abbrev Image := ℕ

/-- A decoded PCM audio track. -/
structure AudioTrack where
  samples : List Int
  durationSeconds : ℕ
deriving DecidableEq, Repr

/-- An uploaded media container: an optional audio track, a frame source and
a clip duration. -/
structure Media where
  audioTrack : Option AudioTrack
  frameAt : ℕ → Image
  durationSeconds : ℕ

/-- The bundle produced by the media preprocessor: the audio track plus the
deterministically sampled `(timestampSeconds, image)` frames. -/
structure MediaBundle where
  audio : AudioTrack
  frames : List (ℚ × Image)
deriving DecidableEq, Repr

/-- The pluggable external capabilities the agents delegate to: speech
transcription, raw pitch / volume / speed / prosody extraction, and per-frame
emotion classification (which may fail per frame with a no-face error). -/
structure Capabilities where
  transcribe : AudioTrack → Except CoachError String
  rawPitch : AudioTrack → ℚ
  rawVolume : AudioTrack → ℚ
  rawSpeed : AudioTrack → ℚ
  rawProsody : AudioTrack → ℚ
  classify : Image → Except CoachError Intensities

/-- Clamp a raw score into the 0..10 band. -/
def clampScore (q : ℚ) : ℚ := max 0 (min 10 q)

/-- Modelled from the spec: the media preprocessor samples one frame every
fixed interval (5 seconds) from start to end of the clip; a clip shorter than
one interval yields exactly the first frame. -/
def frameIntervalSeconds : ℕ := 5

/-- Timestamps (in seconds) at which frames are sampled. -/
def sampleTimestamps (duration : ℕ) : List ℕ :=
  (List.range (duration / frameIntervalSeconds + 1)).map (fun i => frameIntervalSeconds * i)

/-- Modelled from the spec: `MediaPreprocessor` (missing backend module
`video_utils.py`) extracts the audio track and the sampled frames, failing
with `UnsupportedMediaError` when the container has no audio track. -/
def preprocess (m : Media) : Except CoachError MediaBundle :=
  match m.audioTrack with
  | none => .error .unsupportedMedia
  | some a => .ok ⟨a, (sampleTimestamps m.durationSeconds).map (fun t => ((Nat.cast t : ℚ), m.frameAt t))⟩

/-- The fixed filler-word vocabulary used for the fluency penalty. -/
def fillerVocab : List String := ["um", "uh", "like", "so", "basically"]

/-- Character-level whitespace splitting, accumulating the current token in
reverse; empty tokens are dropped. -/
def tokAux : List Char → List Char → List String
  | [], acc => if acc.isEmpty then [] else [String.mk acc.reverse]
  | c :: cs, acc =>
    if c = ' ' then
      (if acc.isEmpty then tokAux cs [] else String.mk acc.reverse :: tokAux cs [])
    else tokAux cs (c :: acc)

/-- Whitespace tokenisation, dropping empty tokens. -/
def tokenize (text : String) : List String := tokAux text.data []

/-- Sub-score rewarding a low filler-word density. -/
def fillerScore (ws : List String) : ℚ :=
  clampScore (10 * (1 - ((ws.filter (fun w => fillerVocab.contains w)).length : ℚ) / (ws.length : ℚ)))

/-- Sub-score for vocabulary richness (unique-word ratio). -/
def richnessScore (ws : List String) : ℚ :=
  clampScore (10 * ((ws.eraseDups.length : ℚ) / (ws.length : ℚ)))

/-- Sub-score for sentence structure, from the average sentence length. -/
def structureScore (text : String) : ℚ :=
  let sentences := (text.splitOn ".").filter (fun s => s ≠ "")
  let words : ℚ := (tokenize text).length
  let avg : ℚ := words / (max 1 (sentences.length : ℚ))
  clampScore (10 - |avg - 15| / 2)

/-- Sub-score penalising immediately repeated words. -/
def repetitionScore (ws : List String) : ℚ :=
  clampScore (10 - 2 * ((ws.zip ws.tail).filter (fun p => p.1 == p.2)).length)

/-- Modelled from the spec: the fixed weighted combination of the four
transcript sub-scores into one 0..10 clarity score; an empty transcript gets
the minimum defined score 0, not an error. -/
def qualityScoreOf (text : String) : ℚ :=
  let ws := tokenize text
  if ws.isEmpty then 0
  else clampScore ((3 * fillerScore ws + 2 * structureScore text +
    3 * richnessScore ws + 2 * repetitionScore ws) / 10)

/-- Modelled from the spec: `TranscriptQualityAgent` (missing backend module
`transcriber.py`): transcribe via the external capability, then derive the
clarity score; a transcription failure surfaces as the agent error. -/
def transcriptQualityAgent (caps : Capabilities) (a : AudioTrack) :
    Except CoachError TranscriptResult :=
  match caps.transcribe a with
  | .error e => .error e
  | .ok text =>
    let ws := tokenize text
    .ok ⟨text, qualityScoreOf text,
      (ws.filter (fun w => fillerVocab.contains w)).length, ws.length⟩

/-- Minimum duration below which no stable pitch contour can be extracted. -/
def minPitchDurationSeconds : ℕ := 1

/-- Modelled from the spec: `VoiceMetricsAgent` (missing backend module
`voice_analyzer.py`): all four scores are computed together and each is
independently clamped to 0..10; audio shorter than the minimum duration gets
all-zero scores rather than a failure. -/
def voiceMetricsAgent (caps : Capabilities) (a : AudioTrack) : VoiceMetrics :=
  if a.durationSeconds < minPitchDurationSeconds then ⟨0, 0, 0, 0⟩
  else ⟨clampScore (caps.rawPitch a), clampScore (caps.rawVolume a),
    clampScore (caps.rawSpeed a), clampScore (caps.rawProsody a)⟩

/-- Fixed enumeration of the emotion taxonomy. -/
def emotionOrder : List Emotion :=
  [.happy, .sad, .angry, .fear, .disgust, .surprise, .neutral]

/-- The dominant (highest-confidence) label of one sample. -/
def dominantEmotion (i : Intensities) : Emotion :=
  emotionOrder.foldl (fun best e => if i.get best < i.get e then e else best) .happy

/-- Labels counted as positive or engaged when they dominate a frame. -/
def isPositive : Emotion → Bool
  | .happy => true
  | .surprise => true
  | _ => false

/-- Modelled from the spec: the aggregate rating is monotone in the share of
positive-dominant frames and clamps to 0..10. -/
def overallRatingOf (samples : List EmotionSample) : ℚ :=
  if samples.isEmpty then 0
  else
    let pos : ℚ := (samples.filter (fun s => isPositive (dominantEmotion s.intensities))).length
    clampScore (10 * pos / (samples.length : ℚ))

/-- Classify one sampled frame, keeping its timestamp; a per-frame
classification failure yields `none` (the frame is skipped). -/
def classifyFrame (caps : Capabilities) (fr : ℚ × Image) : Option EmotionSample :=
  (caps.classify fr.2).toOption.map (fun ints => ⟨fr.1, ints⟩)

/-- Modelled from the spec: `ExpressionTimelineAgent` (missing backend module
`emotion_analyzer.py`): per-frame failures are skipped; when no frame at all
produced a sample the whole agent fails with `NoFacesDetectedError`. -/
def expressionTimelineAgent (caps : Capabilities) (frames : List (ℚ × Image)) :
    Except CoachError EmotionTimeline :=
  let samples := frames.filterMap (classifyFrame caps)
  if samples.isEmpty then .error .noFacesDetected
  else .ok ⟨samples, overallRatingOf samples⟩

/-- Number of sampled frames on which per-frame classification fails. -/
def classificationFailures (caps : Capabilities) (frames : List (ℚ × Image)) : ℕ :=
  (frames.filter (fun fr => (classifyFrame caps fr).isNone)).length

/-- Number of timeline samples of an agent outcome (0 for a failed agent). -/
def timelineSampleCount : Except CoachError EmotionTimeline → ℕ
  | .ok t => t.samples.length
  | .error _ => 0

/-- Whether an agent outcome is a success. -/
def isOkE {ε α : Type} : Except ε α → Bool
  | .ok _ => true
  | .error _ => false

/-- The three analysis agents, as named by the backend API. -/
inductive AgentTag where
  | transcriber
  | voice
  | emotion
deriving DecidableEq, Repr

/-- An error map with no entries. -/
def emptyErrors : ErrorMap := ⟨none, none, none, none⟩

/-- The report before any agent outcome has been merged. -/
def emptyReport : AnalysisReport := ⟨none, none, none, emptyErrors⟩

/-- The report returned when the media preprocessor itself fails: all three
optional fields absent and a single errors entry keyed by `preprocessing`. -/
def preprocessingFailureReport (e : CoachError) : AnalysisReport :=
  ⟨none, none, none, ⟨some e, none, none, none⟩⟩

/-- Modelled from the spec: merging one agent outcome into the report at the
orchestrator join barrier. A success fills the optional field of the agent; a
caught failure is recorded under the key of the agent of the errors map. Each
agent touches only its own field and its own error key. -/
def applyAgentOutcome (caps : Capabilities) (b : MediaBundle)
    (r : AnalysisReport) (tag : AgentTag) : AnalysisReport :=
  match tag with
  | .transcriber =>
    match transcriptQualityAgent caps b.audio with
    | .ok t => { r with transcript := some t }
    | .error e => { r with errors := { r.errors with transcriber := some e } }
  | .voice => { r with voice := some (voiceMetricsAgent caps b.audio) }
  | .emotion =>
    match expressionTimelineAgent caps b.frames with
    | .ok t => { r with emotion := some t }
    | .error e => { r with errors := { r.errors with emotion := some e } }

/-- One completion order of the three concurrent agents. -/
def fullSchedule : List AgentTag := [.transcriber, .voice, .emotion]

/-- Modelled from the spec: `AnalysisOrchestrator.analyze` (missing backend
module `main.py`), parameterised by the order in which the three concurrent
agents happen to complete. A preprocessing failure returns immediately
without consulting any agent; otherwise every agent outcome is merged at the
join barrier before the report is returned. -/
def analyzeSched (sched : List AgentTag) (caps : Capabilities) (m : Media) :
    AnalysisReport :=
  match preprocess m with
  | .error e => preprocessingFailureReport e
  | .ok b => sched.foldl (applyAgentOutcome caps b) emptyReport

/-- The orchestrator entry point, with the canonical completion order. -/
def analyze (caps : Capabilities) (m : Media) : AnalysisReport :=
  analyzeSched fullSchedule caps m

/-- Names of the four voice sub-scores. -/
inductive VoiceMetricName where
  | pitch
  | volume
  | speed
  | prosody
deriving DecidableEq, Repr

/-- Select one of the four voice sub-scores. -/
def VoiceMetrics.score (v : VoiceMetrics) : VoiceMetricName → ℚ
  | .pitch => v.pitch
  | .volume => v.volume
  | .speed => v.speed
  | .prosody => v.prosody

/-- The keyword naming each voice sub-score inside advice text. -/
def metricKeyword : VoiceMetricName → String
  | .pitch => "pitch"
  | .volume => "volume"
  | .speed => "speed"
  | .prosody => "prosody"

/-- Modelled from the spec: the voice advice targets whichever of the four
sub-scores is lowest (ties broken in the fixed field order). -/
def voiceAdviceTarget (v : VoiceMetrics) : VoiceMetricName :=
  if v.pitch ≤ v.volume ∧ v.pitch ≤ v.speed ∧ v.pitch ≤ v.prosody then .pitch
  else if v.volume ≤ v.speed ∧ v.volume ≤ v.prosody then .volume
  else if v.speed ≤ v.prosody then .speed
  else .prosody

/-- Render the vocal-exercise advice; it names the targeted lowest metric. -/
def renderVoiceAdvice (v : VoiceMetrics) (ctx : String) : String :=
  "Vocal coaching: your lowest delivery score is " ++
    metricKeyword (voiceAdviceTarget v) ++
    (". Practice daily exercises for this metric. Context: " ++ ctx)

/-- Transcript text with the filler vocabulary removed. -/
def removeFillerWords (text : String) : String :=
  String.intercalate " " ((tokenize text).filter (fun w => !(fillerVocab.contains w)))

/-- Modelled from the spec: transcript advice is a rewritten transcript plus
an explanation driven by the filler density. -/
def renderTranscriptAdvice (t : TranscriptResult) (ctx : String) : String :=
  "Rewritten transcript: " ++ removeFillerWords t.text ++
    (". Filler words removed: " ++ (toString t.fillerCount ++ (". Context: " ++ ctx)))

/-- Human-readable name of an emotion label. -/
def emotionKeyword : Emotion → String
  | .happy => "happy"
  | .sad => "sad"
  | .angry => "angry"
  | .fear => "fear"
  | .disgust => "disgust"
  | .surprise => "surprise"
  | .neutral => "neutral"

/-- Number of samples whose dominant label is the given emotion. -/
def dominantCount (t : EmotionTimeline) (e : Emotion) : ℕ :=
  (t.samples.filter (fun s => dominantEmotion s.intensities == e)).length

/-- The emotion label that dominated the timeline most often. -/
def timelineDominant (t : EmotionTimeline) : Emotion :=
  emotionOrder.foldl (fun best e => if dominantCount t best < dominantCount t e then e else best) .happy

/-- Modelled from the spec: emotion advice is keyed on the dominating label. -/
def renderEmotionAdvice (t : EmotionTimeline) (ctx : String) : String :=
  "Expression exercises: your timeline was dominated by " ++
    emotionKeyword (timelineDominant t) ++
    (". Work on emotional range, gestures, facial expressiveness and overall impact. Context: " ++ ctx)

/-- Whether the sub-report referenced by an advice request is absent. -/
def subReportMissing (a : AgentTag) (r : AnalysisReport) : Bool :=
  match a with
  | .transcriber => r.transcript.isNone
  | .voice => r.voice.isNone
  | .emotion => r.emotion.isNone

/-- Modelled from the spec: `AdviceGenerator.generateAdvice` (missing backend
module `action_agent.py`): a request whose referenced sub-report field is
absent fails with `MissingAnalysisError`; otherwise advice is produced per
agent type. -/
def generateAdvice (a : AgentTag) (r : AnalysisReport) (ctx : String) :
    Except CoachError String :=
  match a with
  | .transcriber =>
    match r.transcript with
    | none => .error .missingAnalysis
    | some t => .ok (renderTranscriptAdvice t ctx)
  | .voice =>
    match r.voice with
    | none => .error .missingAnalysis
    | some v => .ok (renderVoiceAdvice v ctx)
  | .emotion =>
    match r.emotion with
    | none => .error .missingAnalysis
    | some t => .ok (renderEmotionAdvice t ctx)

/-- State a backend server might share between requests (a cached report). -/
structure ServerState where
  cachedReport : Option AnalysisReport

/-- The request body of the advice endpoint: the agent type, the analysis
report carried explicitly by the request, and the free-text context. -/
structure AdviceRequest where
  agentType : AgentTag
  analysisData : AnalysisReport
  context : String

/-- Modelled from the spec: the advice endpoint handler reads the report from
the request body only, never from server-side shared state, and leaves that
state untouched. -/
def adviceHandler (s : ServerState) (req : AdviceRequest) :
    Except CoachError String × ServerState :=
  (generateAdvice req.agentType req.analysisData req.context, s)

/-- The frontend page state relevant to advice requests
(`window.currentAnalysisData` and the speech-context input). -/
structure UIState where
  currentAnalysisData : Option AnalysisReport
  speechContext : String

/-- Shallow embedding of `getActionableAdvice` (record-script.js): when no
analysis data is stored the request is refused client-side; otherwise the
request is built carrying the stored report explicitly in its body. -/
def buildAdviceRequest (ui : UIState) (a : AgentTag) : Option AdviceRequest :=
  match ui.currentAnalysisData with
  | none => none
  | some d => some ⟨a, d, ui.speechContext⟩

/-- The four voice-metric score slots written by the frontend report page. -/
structure VoiceUISlots where
  prosodyScore : Option String
  toneScore : Option String
  pitchScore : Option String
  speedScore : Option String
deriving DecidableEq, Repr

/-- Shallow embedding of the voice branch of `populateAnalysisResults`
(record-script.js): when `data.voice` is present all four slots are written
from the one voice record, otherwise none of them is touched. -/
def populateVoiceSlots (voice : Option VoiceMetrics) : VoiceUISlots :=
  match voice with
  | none => ⟨none, none, none, none⟩
  | some v =>
    ⟨some (toString v.prosody ++ "/10"), some (toString v.volume ++ "/10"),
      some (toString v.pitch ++ "/10"), some (toString v.speed ++ "/10")⟩

/-- A JavaScript number that is either a finite value or non-finite
(NaN / Infinity), as produced by floating-point division. -/
inductive JsNum where
  | fin (q : ℚ)
  | nan
deriving DecidableEq, Repr

/-- JavaScript division: a zero denominator produces a non-finite value
(0 / 0 is NaN, x / 0 is an infinity). -/
def jsDiv (a b : ℚ) : JsNum :=
  if b = 0 then .nan else .fin (a / b)

/-- Multiplication of a JavaScript number by a finite constant. -/
def JsNum.mulConst (x : JsNum) (c : ℚ) : JsNum :=
  match x with
  | .fin q => .fin (q * c)
  | .nan => .nan

/-- One entry of the backend emotion timeline as consumed by the frontend:
a time label plus one intensity per capitalised emotion key (an absent key is
modelled as intensity 0, which the frontend guard treats identically). -/
structure GraphEntry where
  time : String
  happy : ℚ
  angry : ℚ
  disgust : ℚ
  fear : ℚ
  surprise : ℚ
  sad : ℚ
  neutral : ℚ
deriving DecidableEq, Repr

/-- Intensity of one emotion key of a timeline entry. -/
def GraphEntry.get (e : GraphEntry) : Emotion → ℚ
  | .happy => e.happy
  | .angry => e.angry
  | .disgust => e.disgust
  | .fear => e.fear
  | .surprise => e.surprise
  | .sad => e.sad
  | .neutral => e.neutral

/-- The emotion keys in the order the frontend iterates them. -/
def graphEmotionOrder : List Emotion :=
  [.happy, .angry, .disgust, .fear, .surprise, .sad, .neutral]

/-- One point pushed onto the emotion graph. -/
structure GraphPoint where
  xPosition : JsNum
  yPosition : ℚ
  time : String
  emotion : Emotion
  intensity : ℚ
deriving DecidableEq, Repr

/-- Shallow embedding of `convertEmotionTimelineToGraph` (record-script.js
lines 860-880): for each timeline entry and each emotion with a strictly
positive intensity, push a point at
`xPosition = index / (timeline.length - 1) * 100` and
`yPosition = 100 - intensity`. -/
def convertEmotionTimelineToGraph (timeline : List GraphEntry) : List GraphPoint :=
  timeline.enum.flatMap (fun p =>
    graphEmotionOrder.filterMap (fun em =>
      let v := p.2.get em
      if 0 < v then
        some ⟨(jsDiv (p.1 : ℚ) ((timeline.length : ℚ) - 1)).mulConst 100,
          100 - v, p.2.time, em, v⟩
      else none))

/-- Whether a score lies in the 0..10 band. -/
def scoreInRange (q : ℚ) : Bool := decide (0 ≤ q ∧ q ≤ 10)

/-- Whether the samples of a timeline are in nondecreasing timestamp order. -/
def sortedByTimestamp (l : List EmotionSample) : Bool :=
  decide (List.Chain' (fun a b => a.timestampSeconds ≤ b.timestampSeconds) l)

/-- The per-field invariants of an analysis report: every present score in
0..10 and the emotion timeline sorted by timestamp. -/
def reportInvariantsHold (r : AnalysisReport) : Bool :=
  (match r.transcript with
    | none => true
    | some t => scoreInRange t.qualityScore) &&
  (match r.voice with
    | none => true
    | some v => scoreInRange v.pitch && scoreInRange v.volume &&
        scoreInRange v.speed && scoreInRange v.prosody) &&
  (match r.emotion with
    | none => true
    | some t => scoreInRange t.overallRating && sortedByTimestamp t.samples)

/-- Whether a graph point is well-formed for the claim about the converter:
finite in-range x position, y mirroring the intensity, positive intensity. -/
def pointWellFormed (p : GraphPoint) : Bool :=
  (match p.xPosition with
    | .fin q => decide (0 ≤ q ∧ q ≤ 100)
    | .nan => false) &&
  decide (p.yPosition = 100 - p.intensity) && decide (0 < p.intensity)

/-- A deterministic stub capability set: transcription yields the empty
transcript, the raw voice extractors return 5, classification always detects
a mildly happy face. -/
def stubCaps : Capabilities :=
  ⟨fun _ => .ok "", fun _ => 5, fun _ => 5, fun _ => 5, fun _ => 5,
    fun _ => .ok ⟨50, 0, 0, 0, 0, 0, 0⟩⟩

/-- A second stub capability set whose transcription and classification fail,
used to show agent-independence of the preprocessing-failure path. -/
def failingCaps : Capabilities :=
  ⟨fun _ => .error (.transcriptionError "model unavailable"), fun _ => 0,
    fun _ => 0, fun _ => 0, fun _ => 0, fun _ => .error .noFacesDetected⟩

/-- A silent ten-second audio track (an all-zero waveform). -/
def silentAudio : AudioTrack := ⟨List.replicate 40 0, 10⟩

/-- A concrete media input with an audio track, lasting 12 seconds. -/
def mediaOk : Media := ⟨some silentAudio, fun t => t, 12⟩

/-- A concrete media input whose container carries no audio track. -/
def mediaNoAudio : Media := ⟨none, fun t => t, 12⟩

/-- Whether an audio track is an all-zero (or empty) waveform. -/
def isSilent (a : AudioTrack) : Bool := a.samples.all (fun s => s == 0)

/-- The bundle the preprocessor extracts from `mediaOk`: the audio track and
one frame every 5 seconds of the 12-second clip. -/
def bundleOk : MediaBundle :=
  ⟨silentAudio, [((0 : ℚ), 0), ((5 : ℚ), 5), ((10 : ℚ), 10)]⟩

/-- A stub capability set whose classification fails on every image except
image 0, used to exercise the per-frame skip policy. -/
def oneFailCaps : Capabilities :=
  ⟨fun _ => .ok "", fun _ => 5, fun _ => 5, fun _ => 5, fun _ => 5,
    fun img => if img = 0 then .ok ⟨50, 0, 0, 0, 0, 0, 0⟩ else .error .noFacesDetected⟩

/-- Two sampled frames; with `oneFailCaps` exactly the second one fails. -/
def twoFrames : List (ℚ × Image) := [((0 : ℚ), 0), ((5 : ℚ), 1)]

/-- An alternative completion order of the three agents. -/
def altSchedule : List AgentTag := [.voice, .emotion, .transcriber]

/-- A concrete two-entry frontend timeline. -/
def timeline2 : List GraphEntry :=
  [⟨"0:00", 80, 0, 0, 0, 0, 0, 20⟩, ⟨"0:05", 60, 0, 0, 0, 0, 0, 40⟩]

/-- A concrete single-entry frontend timeline. -/
def timeline1 : List GraphEntry := [⟨"0:00", 80, 0, 0, 0, 0, 0, 20⟩]

/-! Helper lemmas. -/

theorem clampScore_nonneg (q : ℚ) : 0 ≤ clampScore q := le_max_left _ _

theorem clampScore_le_ten (q : ℚ) : clampScore q ≤ 10 :=
  max_le (by norm_num) (min_le_left _ _)

theorem scoreInRange_clamp (q : ℚ) : scoreInRange (clampScore q) = true := by
  simp only [scoreInRange, decide_eq_true_eq]
  exact ⟨clampScore_nonneg q, clampScore_le_ten q⟩

theorem scoreInRange_zero : scoreInRange 0 = true := by decide

theorem qualityScoreOf_range (text : String) :
    scoreInRange (qualityScoreOf text) = true := by
  rcases htok : tokenize text with _ | ⟨w, ws⟩
  · simp only [qualityScoreOf, htok, List.isEmpty_nil, if_true]
    exact scoreInRange_zero
  · simp only [qualityScoreOf, htok, List.isEmpty_cons, if_false, Bool.false_eq_true]
    exact scoreInRange_clamp _

theorem length_filterMap_add_failures {α β : Type} (f : α → Option β) (l : List α) :
    (l.filterMap f).length + (l.filter (fun x => (f x).isNone)).length = l.length := by
  induction l with
  | nil => rfl
  | cons a l ih =>
    cases h : f a <;> simp [List.filterMap_cons, h, List.filter_cons] <;> omega

theorem sampleTimestamps_pairwise (d : ℕ) :
    List.Pairwise (· < ·) (sampleTimestamps d) := by
  unfold sampleTimestamps
  rw [List.pairwise_map]
  refine (List.pairwise_lt_range _).imp ?_
  intro a b hab
  unfold frameIntervalSeconds
  omega

theorem frames_pairwise (m : Media) (b : MediaBundle) (hb : preprocess m = .ok b) :
    List.Pairwise (fun p q : ℚ × Image => p.1 ≤ q.1) b.frames := by
  unfold preprocess at hb
  rcases hma : m.audioTrack with _ | a <;> rw [hma] at hb
  · cases hb
  · cases hb
    rw [List.pairwise_map]
    refine (sampleTimestamps_pairwise m.durationSeconds).imp ?_
    intro x y hxy
    exact Nat.cast_le.mpr (Nat.le_of_lt hxy)

theorem samples_pairwise (caps : Capabilities) (frames : List (ℚ × Image))
    (hf : List.Pairwise (fun p q : ℚ × Image => p.1 ≤ q.1) frames) :
    List.Pairwise (fun a b : EmotionSample => a.timestampSeconds ≤ b.timestampSeconds)
      (frames.filterMap (classifyFrame caps)) := by
  rw [List.pairwise_filterMap]
  refine hf.imp ?_
  intro p q hpq s hs t ht
  rw [Option.mem_def] at hs ht
  simp only [classifyFrame, Option.map_eq_some'] at hs ht
  obtain ⟨i1, _, rfl⟩ := hs
  obtain ⟨i2, _, rfl⟩ := ht
  exact hpq

theorem overallRatingOf_range (samples : List EmotionSample) :
    scoreInRange (overallRatingOf samples) = true := by
  unfold overallRatingOf
  split
  · exact scoreInRange_zero
  · exact scoreInRange_clamp _

theorem voiceMetricsAgent_range (caps : Capabilities) (a : AudioTrack) :
    scoreInRange (voiceMetricsAgent caps a).pitch = true ∧
    scoreInRange (voiceMetricsAgent caps a).volume = true ∧
    scoreInRange (voiceMetricsAgent caps a).speed = true ∧
    scoreInRange (voiceMetricsAgent caps a).prosody = true := by
  unfold voiceMetricsAgent
  split
  · exact ⟨by decide, by decide, by decide, by decide⟩
  · exact ⟨scoreInRange_clamp _, scoreInRange_clamp _,
      scoreInRange_clamp _, scoreInRange_clamp _⟩

theorem transcript_agent_score_range (caps : Capabilities) (a : AudioTrack)
    (t : TranscriptResult) (ht : transcriptQualityAgent caps a = .ok t) :
    scoreInRange t.qualityScore = true := by
  unfold transcriptQualityAgent at ht
  rcases htr : caps.transcribe a with e | text <;> rw [htr] at ht
  · cases ht
  · cases ht
    exact qualityScoreOf_range text

theorem emotion_agent_ok (caps : Capabilities) (frames : List (ℚ × Image))
    (tl : EmotionTimeline) (he : expressionTimelineAgent caps frames = .ok tl) :
    tl.overallRating = overallRatingOf tl.samples ∧
    tl.samples = frames.filterMap (classifyFrame caps) := by
  unfold expressionTimelineAgent at he
  cases hs : (frames.filterMap (classifyFrame caps)).isEmpty <;>
    simp only [hs, Bool.false_eq_true, if_false, if_true] at he
  · cases he
    exact ⟨rfl, rfl⟩
  · cases he

/-! Claim theorems. -/

/-- C2: `generateAdvice` fails with `MissingAnalysisError` exactly when the
sub-report field referenced by the requested agent type is absent from the
report, and produces advice exactly when that field is present — so advice is
refused per missing dimension, not merely when no report exists at all. -/
theorem generateAdvice_missing_analysis (a : AgentTag) (r : AnalysisReport) (ctx : String) :
    (generateAdvice a r ctx = .error .missingAnalysis ↔ subReportMissing a r = true) ∧
    (isOkE (generateAdvice a r ctx) = true ↔ subReportMissing a r = false) := by
  cases a
  · rcases h : r.transcript with _ | t <;>
      simp [generateAdvice, subReportMissing, h, isOkE]
  · rcases h : r.voice with _ | v <;>
      simp [generateAdvice, subReportMissing, h, isOkE]
  · rcases h : r.emotion with _ | t <;>
      simp [generateAdvice, subReportMissing, h, isOkE]

/-- C8: the advice stage is stateless per call: the handler result depends
only on the explicit request (identical for any two server states), the
server state is left untouched, and the frontend caller passes the stored
report explicitly inside the request body rather than having the core look
it up from shared mutable state. -/
theorem advice_stateless (s₁ s₂ : ServerState) (req : AdviceRequest)
    (ui : UIState) (a : AgentTag) :
    (adviceHandler s₁ req).1 = (adviceHandler s₂ req).1 ∧
    (adviceHandler s₁ req).2 = s₁ ∧
    buildAdviceRequest ui a =
      ui.currentAnalysisData.map (fun d => ⟨a, d, ui.speechContext⟩) := by
  refine ⟨rfl, rfl, ?_⟩
  rcases ui with ⟨cd, ctx⟩
  cases cd <;> rfl

/-- C6: a zero-length or silent audio input (whose transcription is the empty
text) makes `TranscriptQualityAgent` return the empty transcript with the
minimum quality score 0 and no error — silence is never treated as failure. -/
theorem silent_audio_min_score (caps : Capabilities) (a : AudioTrack)
    (_hs : isSilent a = true) (ht : caps.transcribe a = .ok "") :
    transcriptQualityAgent caps a = .ok ⟨"", 0, 0, 0⟩ := by
  unfold transcriptQualityAgent
  rw [ht]
  rfl

/-- Witness for C6 at the concrete all-zero ten-second waveform. -/
theorem silent_audio_min_score_witness :
    isSilent silentAudio = true ∧ stubCaps.transcribe silentAudio = .ok "" ∧
    transcriptQualityAgent stubCaps silentAudio = .ok ⟨"", 0, 0, 0⟩ :=
  ⟨by decide, rfl, silent_audio_min_score stubCaps silentAudio (by decide) rfl⟩

/-- C3: voice metrics are all-or-nothing. The voice field of the merged
report is the full four-field `VoiceMetrics` record whenever preprocessing
succeeded and absent otherwise, and the frontend report page writes all four
voice score slots together exactly when the voice sub-report is present —
never one, two or three of them. -/
theorem voice_metrics_all_or_nothing (caps : Capabilities) (m : Media)
    (d : Option VoiceMetrics) :
    (analyze caps m).voice =
      (preprocess m).toOption.map (fun b => voiceMetricsAgent caps b.audio) ∧
    (populateVoiceSlots d).prosodyScore.isSome = d.isSome ∧
    (populateVoiceSlots d).toneScore.isSome = d.isSome ∧
    (populateVoiceSlots d).pitchScore.isSome = d.isSome ∧
    (populateVoiceSlots d).speedScore.isSome = d.isSome := by
  constructor
  · rcases hp : preprocess m with e | b
    · simp [analyze, analyzeSched, hp, preprocessingFailureReport, Except.toOption]
    · rcases ht : transcriptQualityAgent caps b.audio with e1 | t <;>
        rcases he : expressionTimelineAgent caps b.frames with e2 | tl <;>
          simp [analyze, analyzeSched, hp, fullSchedule, applyAgentOutcome,
            ht, he, Except.toOption, emptyReport, emptyErrors]
  · cases d <;> simp [populateVoiceSlots]

/-- C1: if the media preprocessor fails, `analyze` returns immediately a
report with all three optional fields absent and exactly one errors entry
keyed `preprocessing`, and the result does not depend on the agent
capabilities at all (no agent is invoked); if preprocessing succeeds, each
field of the merged report is exactly the outcome of its own agent, a failure
of one agent is recorded under the key of that agent without altering the
results of the other two. -/
theorem orchestrator_failure_isolation (caps caps2 : Capabilities) (m : Media) :
    (∀ e, preprocess m = .error e →
      analyze caps m = preprocessingFailureReport e ∧
      analyze caps m = analyze caps2 m) ∧
    (∀ b, preprocess m = .ok b →
      (analyze caps m).transcript = (transcriptQualityAgent caps b.audio).toOption ∧
      (analyze caps m).voice = some (voiceMetricsAgent caps b.audio) ∧
      (analyze caps m).emotion = (expressionTimelineAgent caps b.frames).toOption ∧
      (∀ e, transcriptQualityAgent caps b.audio = .error e →
        (analyze caps m).errors.transcriber = some e) ∧
      (∀ e, expressionTimelineAgent caps b.frames = .error e →
        (analyze caps m).errors.emotion = some e) ∧
      (analyze caps m).errors.preprocessing = none ∧
      (analyze caps m).errors.voice = none) := by
  constructor
  · intro e he
    constructor <;> simp [analyze, analyzeSched, he]
  · intro b hb
    rcases ht : transcriptQualityAgent caps b.audio with e1 | t <;>
      rcases he : expressionTimelineAgent caps b.frames with e2 | tl <;>
        simp [analyze, analyzeSched, hb, fullSchedule, applyAgentOutcome,
          ht, he, Except.toOption, emptyReport, emptyErrors]

/-- Witness for C1: a concrete container with no audio track yields exactly
the single preprocessing error report whichever stub agents are plugged in,
and with working preprocessing a failing transcription agent is recorded
under its own key while the voice result is untouched. -/
theorem orchestrator_failure_isolation_witness :
    (analyze stubCaps mediaNoAudio = preprocessingFailureReport .unsupportedMedia ∧
      analyze stubCaps mediaNoAudio = analyze failingCaps mediaNoAudio) ∧
    ((analyze failingCaps mediaOk).errors.transcriber =
        some (.transcriptionError "model unavailable") ∧
      (analyze failingCaps mediaOk).voice =
        some (voiceMetricsAgent failingCaps bundleOk.audio)) := by
  constructor
  · exact (orchestrator_failure_isolation stubCaps failingCaps mediaNoAudio).1
      .unsupportedMedia rfl
  · have h := (orchestrator_failure_isolation failingCaps stubCaps mediaOk).2
      bundleOk (by rfl)
    exact ⟨h.2.2.2.1 _ rfl, h.2.1⟩

/-- C5: a per-frame classification failure on exactly one of N > 1 sampled
frames leaves a successful timeline of exactly N - 1 samples and no
agent-level error, while an empty frame sequence (classification fails on 0
of 0 frames) makes the whole agent fail with `NoFacesDetectedError`. -/
theorem expression_agent_frame_skip (caps : Capabilities) (frames : List (ℚ × Image)) :
    (classificationFailures caps frames = 1 → 1 < frames.length →
      isOkE (expressionTimelineAgent caps frames) = true ∧
      timelineSampleCount (expressionTimelineAgent caps frames) = frames.length - 1) ∧
    (frames.length = 0 →
      expressionTimelineAgent caps frames = .error .noFacesDetected) := by
  constructor
  · intro h1 hlen
    have htot := length_filterMap_add_failures (classifyFrame caps) frames
    unfold classificationFailures at h1
    have hsl : (frames.filterMap (classifyFrame caps)).length = frames.length - 1 := by
      omega
    cases hs : (frames.filterMap (classifyFrame caps)).isEmpty
    · simp only [expressionTimelineAgent, hs, Bool.false_eq_true, if_false]
      exact ⟨rfl, by simpa [timelineSampleCount] using hsl⟩
    · exfalso
      have : (frames.filterMap (classifyFrame caps)) = [] := List.isEmpty_iff.mp hs
      rw [this] at hsl
      simp at hsl
      omega
  · intro h0
    have h : frames = [] := List.length_eq_zero.mp h0
    subst h
    rfl

/-- Witness for C5 at two concrete frames of which exactly the second fails
classification, and at the empty frame sequence. -/
theorem expression_agent_frame_skip_witness :
    (classificationFailures oneFailCaps twoFrames = 1 ∧ 1 < twoFrames.length ∧
      isOkE (expressionTimelineAgent oneFailCaps twoFrames) = true ∧
      timelineSampleCount (expressionTimelineAgent oneFailCaps twoFrames) =
        twoFrames.length - 1) ∧
    expressionTimelineAgent oneFailCaps ([] : List (ℚ × Image)) =
      .error .noFacesDetected := by
  have h := (expression_agent_frame_skip oneFailCaps twoFrames).1 (by decide) (by decide)
  exact ⟨⟨by decide, by decide, h.1, h.2⟩,
    (expression_agent_frame_skip oneFailCaps []).2 rfl⟩

/-- C9: `analyze` is deterministic: its result does not depend on the order
in which the three concurrent agents complete, so two calls on byte-identical
media with the same deterministic capabilities yield identical reports. -/
theorem analyze_schedule_independent (s₁ s₂ : List AgentTag)
    (caps : Capabilities) (m : Media)
    (h₁ : s₁.Perm fullSchedule) (h₂ : s₂.Perm fullSchedule) :
    analyzeSched s₁ caps m = analyzeSched s₂ caps m := by
  unfold analyzeSched
  rcases hp : preprocess m with e | b
  · rfl
  · refine List.Perm.foldl_eq' (h₁.trans h₂.symm) ?_ emptyReport
    intro x _ y _ z
    rcases z with ⟨zt, zv, ze, ⟨e1, e2, e3, e4⟩⟩
    rcases x <;> rcases y <;>
      rcases ht : transcriptQualityAgent caps b.audio with et | t <;>
        rcases he : expressionTimelineAgent caps b.frames with ee | tl <;>
          simp [applyAgentOutcome, ht, he]

/-- C4: for all valid media with an audio track, every field present in the
report returned by `analyze` satisfies its own invariants: every present
score (transcript quality, the four voice scores, the emotion rating) lies in
0..10 and the emotion timeline samples are in nondecreasing timestamp
order. -/
theorem analyze_report_invariants (caps : Capabilities) (m : Media)
    (hm : m.audioTrack.isSome = true) :
    reportInvariantsHold (analyze caps m) = true := by
  rcases hp : preprocess m with e | b
  · exfalso
    unfold preprocess at hp
    rcases hma : m.audioTrack with _ | a <;> rw [hma] at hp
    · rw [hma] at hm
      cases hm
    · cases hp
  · have hv := voiceMetricsAgent_range caps b.audio
    have hsorted := samples_pairwise caps b.frames (frames_pairwise m b hp)
    rcases ht : transcriptQualityAgent caps b.audio with e1 | t <;>
      rcases he : expressionTimelineAgent caps b.frames with e2 | tl <;>
        simp only [analyze, analyzeSched, hp, fullSchedule, List.foldl,
          applyAgentOutcome, ht, he, reportInvariantsHold, emptyReport,
          emptyErrors, Bool.and_eq_true, and_assoc]
    · exact ⟨trivial, hv.1, hv.2.1, hv.2.2.1, hv.2.2.2, trivial⟩
    · obtain ⟨hrat, hsam⟩ := emotion_agent_ok caps b.frames tl he
      refine ⟨trivial, hv.1, hv.2.1, hv.2.2.1, hv.2.2.2, ?_, ?_⟩
      · rw [hrat]
        exact overallRatingOf_range _
      · simp only [sortedByTimestamp, decide_eq_true_eq, hsam]
        exact (hsorted.chain')
    · exact ⟨transcript_agent_score_range caps b.audio t ht,
        hv.1, hv.2.1, hv.2.2.1, hv.2.2.2, trivial⟩
    · obtain ⟨hrat, hsam⟩ := emotion_agent_ok caps b.frames tl he
      refine ⟨transcript_agent_score_range caps b.audio t ht,
        hv.1, hv.2.1, hv.2.2.1, hv.2.2.2, ?_, ?_⟩
      · rw [hrat]
        exact overallRatingOf_range _
      · simp only [sortedByTimestamp, decide_eq_true_eq, hsam]
        exact (hsorted.chain')

/-- Witness for C4 at a concrete clip with an audio track and stub agents. -/
theorem analyze_report_invariants_witness :
    mediaOk.audioTrack.isSome = true ∧
    reportInvariantsHold (analyze stubCaps mediaOk) = true :=
  ⟨rfl, analyze_report_invariants stubCaps mediaOk rfl⟩

/-- Witness for C9: two concrete completion orders of the stub agents over
the same concrete media produce the same report. -/
theorem analyze_schedule_independent_witness :
    altSchedule.Perm fullSchedule ∧
    analyzeSched altSchedule stubCaps mediaOk =
      analyzeSched fullSchedule stubCaps mediaOk :=
  ⟨by decide, analyze_schedule_independent altSchedule fullSchedule stubCaps mediaOk
    (by decide) (List.Perm.refl _)⟩

/-- C7: the voice advice produced by `generateAdvice` references coaching for
whichever of the four voice sub-scores is lowest: the targeted metric scores
no higher than any of the four, its keyword occurs in the advice text, and in
particular the metrics pitch 9, volume 9, speed 2, prosody 9 target speed. -/
theorem voice_advice_targets_lowest (v : VoiceMetrics) (ctx : String) (r : AnalysisReport) :
    (v.score (voiceAdviceTarget v) ≤ v.pitch ∧ v.score (voiceAdviceTarget v) ≤ v.volume ∧
      v.score (voiceAdviceTarget v) ≤ v.speed ∧ v.score (voiceAdviceTarget v) ≤ v.prosody) ∧
    generateAdvice .voice { r with voice := some v } ctx = .ok (renderVoiceAdvice v ctx) ∧
    (metricKeyword (voiceAdviceTarget v)).data <:+: (renderVoiceAdvice v ctx).data ∧
    voiceAdviceTarget ⟨9, 9, 2, 9⟩ = .speed := by
  refine ⟨?_, rfl, ?_, ?_⟩
  · unfold voiceAdviceTarget
    split_ifs with h1 h2 h3
    · exact ⟨le_refl _, h1.1, h1.2.1, h1.2.2⟩
    · have hvp : v.volume ≤ v.pitch := by
        rcases not_and_or.mp h1 with h | h
        · exact le_of_lt (not_le.mp h)
        · rcases not_and_or.mp h with h | h
          · have := not_le.mp h
            linarith [h2.1]
          · have := not_le.mp h
            linarith [h2.2]
      exact ⟨hvp, le_refl _, h2.1, h2.2⟩
    · have hsv : v.speed ≤ v.volume := by
        rcases not_and_or.mp h2 with h | h
        · exact le_of_lt (not_le.mp h)
        · have := not_le.mp h
          linarith [h3]
      have hsp : v.speed ≤ v.pitch := by
        rcases not_and_or.mp h1 with h | h
        · have := not_le.mp h
          linarith [hsv]
        · rcases not_and_or.mp h with h | h
          · exact le_of_lt (not_le.mp h)
          · have := not_le.mp h
            linarith [h3]
      exact ⟨hsp, hsv, le_refl _, h3⟩
    · have hps : v.prosody ≤ v.speed := le_of_lt (not_le.mp h3)
      have hpv : v.prosody ≤ v.volume := by
        rcases not_and_or.mp h2 with h | h
        · have := not_le.mp h
          linarith [hps]
        · exact le_of_lt (not_le.mp h)
      have hpp : v.prosody ≤ v.pitch := by
        rcases not_and_or.mp h1 with h | h
        · have := not_le.mp h
          linarith [hpv]
        · rcases not_and_or.mp h with h | h
          · have := not_le.mp h
            linarith [hps]
          · exact le_of_lt (not_le.mp h)
      exact ⟨hpp, hpv, hps, le_refl _⟩
  · unfold renderVoiceAdvice
    rw [String.data_append, String.data_append]
    exact ⟨_, _, rfl⟩
  · decide

/-- C10: the frontend emotion-graph converter yields well-defined coordinates
only for timelines of at least two entries: every emitted point then has a
finite x position in 0..100 (the index scaled over the timeline span), a y
position equal to 100 minus its intensity, and a strictly positive intensity
(zero-intensity emotions emit no point); for a single-entry timeline the
x computation divides by zero, so every emitted point is non-finite. -/
theorem convert_graph_coordinates (timeline : List GraphEntry) :
    (2 ≤ timeline.length →
      (convertEmotionTimelineToGraph timeline).all pointWellFormed = true) ∧
    (timeline.length = 1 →
      (convertEmotionTimelineToGraph timeline).all
        (fun p => p.xPosition == JsNum.nan) = true) := by
  constructor
  · intro h2
    rw [List.all_eq_true]
    intro p hp
    rw [convertEmotionTimelineToGraph, List.mem_flatMap] at hp
    obtain ⟨⟨i, entry⟩, hmem, hp2⟩ := hp
    have hi : i < timeline.length := by
      rw [List.mk_mem_enum_iff_getElem?] at hmem
      exact (List.getElem?_eq_some.mp hmem).1
    rw [List.mem_filterMap] at hp2
    obtain ⟨em, _, hsome⟩ := hp2
    by_cases hv : 0 < entry.get em
    · rw [if_pos hv] at hsome
      cases hsome
      have hdenpos : (0 : ℚ) < (timeline.length : ℚ) - 1 := by
        have h2q : (2 : ℚ) ≤ (timeline.length : ℚ) := by exact_mod_cast h2
        linarith
      have hden : ((timeline.length : ℚ) - 1) ≠ 0 := ne_of_gt hdenpos
      have hile : (i : ℚ) ≤ (timeline.length : ℚ) - 1 := by
        have hiq : (i : ℚ) + 1 ≤ (timeline.length : ℚ) := by exact_mod_cast hi
        linarith
      have hle1 : (i : ℚ) / ((timeline.length : ℚ) - 1) ≤ 1 :=
        (div_le_one hdenpos).mpr hile
      have hge0 : (0 : ℚ) ≤ (i : ℚ) / ((timeline.length : ℚ) - 1) :=
        div_nonneg (Nat.cast_nonneg i) (le_of_lt hdenpos)
      simp only [pointWellFormed, jsDiv, hden, if_false, JsNum.mulConst,
        Bool.and_eq_true, decide_eq_true_eq, and_true, true_and, hv]
      constructor
      · nlinarith
      · nlinarith
    · rw [if_neg hv] at hsome
      cases hsome
  · intro h1
    rw [List.all_eq_true]
    intro p hp
    rw [convertEmotionTimelineToGraph, List.mem_flatMap] at hp
    obtain ⟨⟨i, entry⟩, hmem, hp2⟩ := hp
    rw [List.mem_filterMap] at hp2
    obtain ⟨em, _, hsome⟩ := hp2
    by_cases hv : 0 < entry.get em
    · rw [if_pos hv] at hsome
      cases hsome
      simp only [h1, jsDiv, JsNum.mulConst]
      norm_num
    · rw [if_neg hv] at hsome
      cases hsome

/-- Witness for C10 at a concrete two-entry timeline and a concrete
single-entry timeline. -/
theorem convert_graph_coordinates_witness :
    (convertEmotionTimelineToGraph timeline2).all pointWellFormed = true ∧
    (convertEmotionTimelineToGraph timeline1).all
      (fun p => p.xPosition == JsNum.nan) = true :=
  ⟨(convert_graph_coordinates timeline2).1 (by decide),
    (convert_graph_coordinates timeline1).2 rfl⟩

end SpeechCoach
